import Mathlib

/-!
Shallow embedding of the browser session manager of the xiaohongshu-mcp
repository (src/browser/browser.go) and proofs about its behaviour.

The Go file bundles three revisions of package browser.  The embedding keeps
one Lean definition per Go function; where two revisions define the same Go
symbol with different bodies, both are embedded under distinguished names and
each doc comment cites the revision it comes from:

- lines 1-162: Config, NewConfig, NewBrowserWithConfig, CustomBrowser,
  createCompatibleBrowser, isSystemChromeAvailable, findChromePath;
- lines 163-340: the attach-based NewChromeBrowser, connectToExistingChrome,
  ChromeBrowser.Close, the profile helpers whose getUserChromeDataDir ends in
  the Default component;
- lines 341-508: the launch-based NewChromeBrowser, loadCookiesForBrowser and
  the profile helpers whose getUserChromeDataDir ends at the Chrome data dir.

External effects (launching processes, opening control connections, setting
cookies, logging) are recorded as explicit events, so theorems can speak about
which processes an acquisition spawned and where cookies were injected.
-/

set_option autoImplicit false

namespace XhsBrowser

/-- Log levels of the logrus calls that appear in browser.go. -/
inductive LogLevel
  | debug
  | info
  | warn
  | fatal
deriving DecidableEq, Repr

/-- Which browser process a control handle drives: a freshly launched system
Chrome, an already-running Chrome the code attached to, or the browser spawned
by the bundled default implementation (the external headless_browser package). -/
inductive ProcKind
  | systemChrome
  | existingChrome
  | bundled
deriving DecidableEq, Repr

/-- Filesystem paths, as lists of components (filepath.Join is list append). -/
abbrev FPath := List String

/-- Observable effects of one acquisition: log lines, process launches,
control-connection dialing and cookie injection. -/
inductive Ev
  | log (lvl : LogLevel) (msg : String)
  | launchChrome (bin : Option String) (headless : Bool) (userDataDir : Option FPath)
  | launchBundled (headless : Bool) (withCookies : Bool)
  | rodConnect (target : ProcKind)
  | setCookies (target : ProcKind) (n : Nat)
deriving DecidableEq, Repr

/-- Config mirrors the Go struct Config (browser.go lines 17-22). -/
structure Config where
  Headless : Bool
  UserAgent : String
  Cookies : String
  UseSystemChrome : Bool
deriving DecidableEq, Repr

/-- NewConfig mirrors browser.go lines 25-31: defaults to the fixed user agent
and to using system Chrome. -/
def NewConfig (headless : Bool) : Config :=
  { Headless := headless
    UserAgent := "Mozilla/5.0 (Macintosh; Intel Mac OS X 10_15_7) AppleWebKit/537.36 (KHTML, like Gecko) Chrome/124.0.0.0 Safari/537.36"
    Cookies := ""
    UseSystemChrome := true }

/-- The fixed candidate install paths of findChromePath (browser.go 150-154). -/
def chromePaths : List String :=
  ["/Applications/Google Chrome.app/Contents/MacOS/Google Chrome",
   "/Applications/Google Chrome Canary.app/Contents/MacOS/Google Chrome Canary",
   "/Applications/Chromium.app/Contents/MacOS/Chromium"]

/-- Environment of exec.LookPath: the set of paths that name an executable
file.  LookPath on a path containing a separator succeeds exactly when the
file exists and is executable. -/
def execLookPathOk (executables : List String) (path : String) : Bool :=
  executables.contains path

/-- findChromePath (browser.go 149-162): scan the fixed candidate list in
order, return the first executable candidate, or the empty string. -/
def findChromePath (executables : List String) : String :=
  match chromePaths.find? (fun p => execLookPathOk executables p) with
  | some p => p
  | none => ""

/-- isSystemChromeAvailable (browser.go 144-146). -/
def isSystemChromeAvailable (executables : List String) : Bool :=
  decide (findChromePath executables ≠ "")

/-- A cookie record as used by MustSetCookies (proto.NetworkCookie). -/
structure NetworkCookie where
  name : String
  value : String
  domain : String
  path : String
deriving DecidableEq, Repr

/-- State of the cookie file on disk at acquisition time. -/
inductive CookieFile
  | missing
  | unreadable
  | malformed (raw : String)
  | wellformed (records : List NetworkCookie)
deriving DecidableEq, Repr

/-- Modelled from the spec: the cookies package (cookies.GetCookiesFilePath,
cookies.NewLoadCookie, LoadCookies) is code of this repository that is not
under src/.  Per spec section 4.4, load reads the fixed file and parses it as
a JSON array of cookie records; a malformed or missing file is a recoverable
error.  So LoadCookies fails exactly on a missing, unreadable or malformed
file, and on success yields the parsed records (the json.Unmarshal done again
at the call sites in browser.go then succeeds on this already-validated
data). -/
def LoadCookies : CookieFile → Except String (List NetworkCookie)
  | .missing => .error "open cookies file: no such file or directory"
  | .unreadable => .error "open cookies file: permission denied"
  | .malformed _ => .error "cookies file is not a valid JSON cookie array"
  | .wellformed records => .ok records

/-- A cookie file state on which LoadCookies fails. -/
def isBadCookieFile : CookieFile → Bool
  | .wellformed _ => false
  | _ => true

/-- The fixed candidate debugging ports of connectToExistingChrome
(browser.go line 221). -/
def ports : List String := ["9222", "9223", "9224"]

/-- The per-port http client timeout of connectToExistingChrome
(browser.go line 225: 2 * time.Second). -/
def perPortTimeoutSeconds : Nat := 2

/-- Reachability environment of the port probe: for each port, the outcome of
the version-info request (none is a transport error or timeout, some code is
an HTTP response with that status) and whether a rod control connection to
that port succeeds. -/
structure PortEnv where
  versionResp : String → Option Nat
  connectOk : String → Bool

/-- Effects of the port probe: version-info requests (with the client timeout
used), response bodies closed, control-connection attempts and successes. -/
inductive ProbeEv
  | versionRequest (port : String) (timeoutSeconds : Nat)
  | bodyClosed (port : String)
  | connectAttempt (port : String)
  | connected (port : String)
deriving DecidableEq, Repr

/-- A port on which attachment works: the version-info request returns HTTP
200 and the control connection opens (browser.go 234-239). -/
def portWorks (env : PortEnv) (p : String) : Bool :=
  decide (env.versionResp p = some 200) && env.connectOk p

/-- The loop body of connectToExistingChrome (browser.go 223-241) over an
arbitrary remaining port list, with its effects: issue the version request
(client timeout 2s); on transport error continue; otherwise close the body;
on status 200 attempt the control connection and return its URL on success;
otherwise continue with the next port. -/
def probePorts (env : PortEnv) : List String → Option String × List ProbeEv
  | [] => (none, [])
  | p :: rest =>
    match env.versionResp p with
    | none =>
      let r := probePorts env rest
      (r.1, .versionRequest p perPortTimeoutSeconds :: r.2)
    | some code =>
      if code = 200 then
        if env.connectOk p then
          (some ("http://localhost:" ++ p),
           [.versionRequest p perPortTimeoutSeconds, .bodyClosed p,
            .connectAttempt p, .connected p])
        else
          let r := probePorts env rest
          (r.1, .versionRequest p perPortTimeoutSeconds :: .bodyClosed p ::
            .connectAttempt p :: r.2)
      else
        let r := probePorts env rest
        (r.1, .versionRequest p perPortTimeoutSeconds :: .bodyClosed p :: r.2)

/-- connectToExistingChrome (browser.go 219-244): probe the fixed ports and
return the control URL of the first working port, or none (the function then
returns the no-existing-Chrome error). -/
def connectToExistingChrome (env : PortEnv) : Option String :=
  (probePorts env ports).1

/-- The probe events of one run of connectToExistingChrome. -/
def connectToExistingChromeEvents (env : PortEnv) : List ProbeEv :=
  (probePorts env ports).2

/-! ### Filesystem model

The profile helpers touch the filesystem through os.MkdirAll, os.Stat,
os.Open, os.Create and ReadFrom.  The model keeps the directories that exist,
the regular files with their contents, and the files that exist but cannot be
opened for reading (permission errors), so that every failure branch of the
Go code is reachable. -/

/-- Lookup of the first entry with the given key in a file table. -/
def getFile : List (FPath × String) → FPath → Option String
  | [], _ => none
  | kv :: rest, k => if kv.1 = k then some kv.2 else getFile rest k

/-- Replace the first entry with the given key, or prepend a new entry. -/
def setFile : List (FPath × String) → FPath → String → List (FPath × String)
  | [], k, v => [(k, v)]
  | kv :: rest, k, v =>
    if kv.1 = k then (k, v) :: rest else kv :: setFile rest k v

/-- Membership of a path in a path list, as a boolean. -/
def memb (x : FPath) : List FPath → Bool
  | [] => false
  | y :: ys => if y = x then true else memb x ys

/-- All prefixes of a path, from the root to the path itself: the directories
os.MkdirAll creates or requires. -/
def ancestors (p : FPath) : List FPath :=
  (List.range (p.length + 1)).map (fun i => p.take i)

/-- Insert each of the given directories, skipping ones already present. -/
def insertDirs (ds : List FPath) : List FPath → List FPath
  | [] => ds
  | q :: l => insertDirs (if memb q ds then ds else q :: ds) l

/-- Filesystem state: existing directories, regular files with contents, and
paths that exist but cannot be opened for reading. -/
structure FS where
  dirs : List FPath
  files : List (FPath × String)
  unreadable : List FPath
deriving DecidableEq, Repr

/-- os.Stat existence check for a regular file. -/
def FS.fileExists (fs : FS) (p : FPath) : Bool :=
  (getFile fs.files p).isSome

/-- os.Open followed by reading the whole file: fails when the file is
missing or unreadable. -/
def FS.openRead (fs : FS) (p : FPath) : Option String :=
  if memb p fs.unreadable then none else getFile fs.files p

/-- os.MkdirAll: fails when the path or one of its ancestors exists as a
regular file, otherwise creates every missing directory on the path. -/
def FS.mkdirAll (fs : FS) (p : FPath) : Option FS :=
  if (ancestors p).any (fun q => fs.fileExists q) then none
  else some { fs with dirs := insertDirs fs.dirs (ancestors p) }

/-- os.Create: truncating create of a regular file; fails when the parent
directory does not exist. -/
def FS.create (fs : FS) (p : FPath) (content : String) : Option FS :=
  if memb p.dropLast fs.dirs then
    some { fs with files := setFile fs.files p content }
  else none

/-- copyFile (browser.go 493-508): open src, create dst, copy the contents;
the error of whichever step fails first is returned. -/
def copyFile (fs : FS) (src dst : FPath) : Except Unit FS :=
  match fs.openRead src with
  | none => .error ()
  | some content =>
    match fs.create dst content with
    | none => .error ()
    | some fs1 => .ok fs1

/-! ### Session handles -/

/-- A rod browser handle: the control URL it dialed and the process kind it
drives. -/
structure RodBrowser where
  controlURL : String
  target : ProcKind
deriving DecidableEq, Repr

/-- ChromeBrowser (browser.go 182-185 and 357-360): a rod handle plus the
launcher field, which is nil exactly when no process was launched for it. -/
structure ChromeBrowser where
  browser : RodBrowser
  launcherOwned : Bool
deriving DecidableEq, Repr

/-- CustomBrowser (browser.go 46-49): the wrapper built on the system-Chrome
path of NewBrowserWithConfig; it always holds the launcher it started. -/
structure CustomBrowser where
  browser : RodBrowser
  launcherOwned : Bool
deriving DecidableEq, Repr

/-- The world a Close call could affect: the processes currently running and
the control connections currently open. -/
structure BrowserWorld where
  runningProcesses : List ProcKind
  openConnections : List String
deriving DecidableEq, Repr

/-- CustomBrowser.Close (browser.go 52-55): logs and does nothing else. -/
def CustomBrowser.Close (_cb : CustomBrowser) (w : BrowserWorld) :
    BrowserWorld × Ev :=
  (w, .log .info "CustomBrowser Close() called but browser will remain open")

/-- ChromeBrowser.Close (browser.go 208-211 and 404-407): logs and does
nothing else. -/
def ChromeBrowser.Close (_cb : ChromeBrowser) (w : BrowserWorld) :
    BrowserWorld × Ev :=
  (w, .log .info "Close() called but browser will remain open")

/-- Iterate ChromeBrowser.Close n times, threading the world through. -/
def ChromeBrowser.closeIter (cb : ChromeBrowser) : Nat → BrowserWorld → BrowserWorld
  | 0, w => w
  | n + 1, w => cb.closeIter n (cb.Close w).1

/-- Iterate CustomBrowser.Close n times, threading the world through. -/
def CustomBrowser.closeIter (cb : CustomBrowser) : Nat → BrowserWorld → BrowserWorld
  | 0, w => w
  | n + 1, w => cb.closeIter n (cb.Close w).1

/-- Result of a function that may call logrus.Fatal, which logs and then
terminates the whole process. -/
inductive Outcome (α : Type)
  | ok (a : α)
  | fatalAbort (msg : String)
deriving DecidableEq, Repr

/-! ### The bundled default browser (external package headless_browser)

github.com/xpzouying/headless_browser is an external collaborator: New applies
the options and brings up the bundled default browser, so its handle drives a
fresh process of its own (spec sections 2 and 4.6: the default fallback
constructs a session from a bundled default browser configuration, and the
WithCookies option injects the given cookie JSON into that live session). -/

/-- Options accepted by headless_browser.New as used in browser.go. -/
inductive HBOption
  | WithHeadless (headless : Bool)
  | WithCookies (records : List NetworkCookie)
deriving DecidableEq, Repr

/-- The headless_browser.Browser value: which process it drives, the headless
mode that process was launched with, and the cookies injected through the
WithCookies option. -/
structure HBBrowser where
  target : ProcKind
  launchedHeadless : Bool
  injectedCookies : Option (List NetworkCookie)
deriving DecidableEq, Repr

/-- headless_browser.New: fold the options and launch the bundled browser
with the resulting headless mode and cookie payload. -/
def HBNew (opts : List HBOption) : HBBrowser × List Ev :=
  let headless := opts.foldl
    (fun h o => match o with | .WithHeadless b => b | _ => h) true
  let cookiesOpt := opts.foldl
    (fun c o => match o with | .WithCookies cs => some cs | _ => c)
    (none : Option (List NetworkCookie))
  ({ target := .bundled, launchedHeadless := headless,
     injectedCookies := cookiesOpt },
   [.launchBundled headless cookiesOpt.isSome])

/-- createCompatibleBrowser (browser.go 133-141): ignores the wrapper it is
given and returns a new headless_browser instance created with
WithHeadless(false). -/
def createCompatibleBrowser (_cb : CustomBrowser) : HBBrowser × List Ev :=
  let r := HBNew [.WithHeadless false]
  (r.1,
   .log .info "Chrome browser launched successfully, creating compatible wrapper"
     :: r.2)

/-! ### Profile helpers -/

/-- getUserChromeDataDir of the launch revision (browser.go 431-443): the
macOS Chrome user data directory, or the empty path when the home directory
cannot be resolved. -/
def getUserChromeDataDir (home : Option FPath) : FPath × List Ev :=
  match home with
  | none => ([], [.log .warn "Failed to get user home directory"])
  | some h =>
    (h ++ ["Library", "Application Support", "Google", "Chrome"],
     [.log .info "Using Chrome user data directory"])

/-- getUserChromeDataDir of the middle revision (browser.go 263-275): the
same directory with the Default profile component appended. -/
def getUserChromeDataDirDefault (home : Option FPath) : FPath × List Ev :=
  match home with
  | none => ([], [.log .warn "Failed to get user home directory"])
  | some h =>
    (h ++ ["Library", "Application Support", "Google", "Chrome", "Default"],
     [.log .info "Using Chrome default profile directory"])

/-- getAutomationChromeDataDir (browser.go 446-463, identical at 278-295):
resolve the Chrome-Automation directory and create it; a creation failure is
only logged and the path is returned regardless. -/
def getAutomationChromeDataDir (home : Option FPath) (fs : FS) :
    FPath × FS × List Ev :=
  match home with
  | none => ([], fs, [.log .warn "Failed to get user home directory"])
  | some h =>
    let dir := h ++ ["Library", "Application Support", "Google", "Chrome-Automation"]
    match fs.mkdirAll dir with
    | none =>
      (dir, fs,
       [.log .warn "Failed to create Chrome automation directory",
        .log .info "Using Chrome automation data directory"])
    | some fs1 =>
      (dir, fs1, [.log .info "Using Chrome automation data directory"])

/-- copyUserCookiesToAutomation of the launch revision (browser.go 466-490):
resolve the user Chrome data dir, create the Default directory of the
automation profile, skip when the user cookie database is absent, and copy it
over otherwise; every failure is only logged. -/
def copyUserCookiesToAutomation (home : Option FPath) (automationDir : FPath)
    (fs : FS) : FS × List Ev :=
  let u := getUserChromeDataDir home
  let userCookiesPath := u.1 ++ ["Default", "Cookies"]
  let automationCookiesDir := automationDir ++ ["Default"]
  let automationCookiesPath := automationCookiesDir ++ ["Cookies"]
  match fs.mkdirAll automationCookiesDir with
  | none => (fs, u.2 ++ [.log .warn "Failed to create automation Default directory"])
  | some fs1 =>
    if fs1.fileExists userCookiesPath = false then
      (fs1, u.2 ++ [.log .info "No user cookies file found to copy"])
    else
      match copyFile fs1 userCookiesPath automationCookiesPath with
      | .error _ => (fs1, u.2 ++ [.log .warn "Failed to copy user cookies"])
      | .ok fs2 =>
        (fs2, u.2 ++ [.log .info "Successfully copied user cookies to automation profile"])

/-- copyUserCookiesToAutomation of the middle revision (browser.go 298-322):
same body, but the user Chrome directory comes from the revision of
getUserChromeDataDir that already ends in the Default component, so the
source path gains a second Default component. -/
def copyUserCookiesToAutomationDefault (home : Option FPath)
    (automationDir : FPath) (fs : FS) : FS × List Ev :=
  let u := getUserChromeDataDirDefault home
  let userCookiesPath := u.1 ++ ["Default", "Cookies"]
  let automationCookiesDir := automationDir ++ ["Default"]
  let automationCookiesPath := automationCookiesDir ++ ["Cookies"]
  match fs.mkdirAll automationCookiesDir with
  | none => (fs, u.2 ++ [.log .warn "Failed to create automation Default directory"])
  | some fs1 =>
    if fs1.fileExists userCookiesPath = false then
      (fs1, u.2 ++ [.log .info "No user cookies file found to copy"])
    else
      match copyFile fs1 userCookiesPath automationCookiesPath with
      | .error _ => (fs1, u.2 ++ [.log .warn "Failed to copy user cookies"])
      | .ok fs2 =>
        (fs2, u.2 ++ [.log .info "Successfully copied user cookies to automation profile"])

/-- The automation-profile provisioning step of the launch-based
NewChromeBrowser (browser.go 374-377): resolve and create the automation data
directory, then copy the user cookie database into it. -/
def provisionAutomationProfile (home : Option FPath) (fs : FS) :
    FPath × FS × List Ev :=
  let g := getAutomationChromeDataDir home fs
  let c := copyUserCookiesToAutomation home g.1 g.2.1
  (g.1, c.1, g.2.2 ++ c.2)

/-- The same provisioning step but with the middle-revision copy helper, the
combination the sources of claim C7 cite. -/
def provisionAutomationProfileDefault (home : Option FPath) (fs : FS) :
    FPath × FS × List Ev :=
  let g := getAutomationChromeDataDir home fs
  let c := copyUserCookiesToAutomationDefault home g.1 g.2.1
  (g.1, c.1, g.2.2 ++ c.2)

/-! ### Cookie loading into a live browser -/

/-- loadCookiesForBrowser (browser.go 415-428): load the cookie file; on
success inject the parsed records into the given browser, on failure log the
warning and continue.  The inline copies of this logic in NewBrowserWithConfig
(lines 84-95) behave identically. -/
def loadCookiesForBrowser (target : ProcKind) (cf : CookieFile) : List Ev :=
  match LoadCookies cf with
  | .ok records => [.setCookies target records.length]
  | .error e => [.log .warn ("failed to load cookies: " ++ e)]

/-! ### Acquisition entry points -/

/-- The fatal message of the attach-based NewChromeBrowser (browser.go
192-195). -/
def attachFatalMsg : String :=
  "Cannot connect to your current Chrome. Please enable remote debugging"

/-- NewChromeBrowser of the middle revision (browser.go 188-205): attach to
an existing Chrome; when no instance is reachable, logrus.Fatal terminates
the process.  On success the handle owns no launcher. -/
def NewChromeBrowserAttach (env : PortEnv) : Outcome ChromeBrowser × List Ev :=
  match connectToExistingChrome env with
  | none => (.fatalAbort attachFatalMsg, [.log .fatal attachFatalMsg])
  | some url =>
    (.ok { browser := { controlURL := url, target := .existingChrome },
           launcherOwned := false },
     [.log .info "Connected to your current Chrome - will create new tab with your current profile"])

/-- The handle the launch-based NewChromeBrowser returns on success: a rod
connection to the launched system Chrome, with the launcher owned. -/
def launchedChromeHandle : ChromeBrowser :=
  { browser := { controlURL := "ws://launched-system-chrome",
                 target := .systemChrome },
    launcherOwned := true }

/-- NewChromeBrowser of the launch revision (browser.go 363-401): locate
system Chrome (fatal when absent), provision the automation profile, launch
Chrome with the requested headless mode, the automation data dir, no sandbox
and an ephemeral debugging port, connect and load cookies. -/
def NewChromeBrowserLaunch (headless : Bool) (executables : List String)
    (home : Option FPath) (fs : FS) (cf : CookieFile) :
    Outcome ChromeBrowser × FS × List Ev :=
  let chromePath := findChromePath executables
  if chromePath = "" then
    (.fatalAbort "System Chrome not found", fs, [.log .fatal "System Chrome not found"])
  else
    let p := provisionAutomationProfile home fs
    let launchEv : Ev := .launchChrome (some chromePath) headless (some p.1)
    let cookieEvs := loadCookiesForBrowser .systemChrome cf
    (.ok launchedChromeHandle,
     p.2.1,
     .log .info ("Starting Chrome from: " ++ chromePath) :: p.2.2
       ++ launchEv :: .rodConnect .systemChrome :: cookieEvs)

/-- NewBrowserWithConfig (browser.go 63-129).  When system Chrome is wanted
and available: launch it with the configured headless mode, connect, inject
the loaded cookies into that connection, then hand the caller the result of
createCompatibleBrowser.  Otherwise: log the fallback warning when system
Chrome was wanted, and build the bundled default browser with the configured
headless mode and, when the cookie file loads, its raw JSON. -/
def NewBrowserWithConfig (cfg : Config) (executables : List String)
    (cf : CookieFile) : HBBrowser × List Ev :=
  if cfg.UseSystemChrome && isSystemChromeAvailable executables then
    let chromePath := findChromePath executables
    let binEvs : List Ev :=
      if chromePath = "" then []
      else [.log .info ("Found Chrome at: " ++ chromePath)]
    let launchEv : Ev := .launchChrome
      (if chromePath = "" then none else some chromePath) cfg.Headless none
    let cookieEvs := loadCookiesForBrowser .systemChrome cf
    let customBrowser : CustomBrowser :=
      { browser := { controlURL := "ws://launched-system-chrome", target := .systemChrome },
        launcherOwned := true }
    let w := createCompatibleBrowser customBrowser
    (w.1,
     .log .info "Using system Chrome" :: binEvs
       ++ launchEv :: .rodConnect .systemChrome :: cookieEvs ++ w.2)
  else
    let warnEvs : List Ev :=
      if cfg.UseSystemChrome then
        [.log .warn "System Chrome not found or not available, falling back to default Chromium"]
      else []
    match LoadCookies cf with
    | .ok records =>
      let r := HBNew [.WithHeadless cfg.Headless, .WithCookies records]
      (r.1, warnEvs ++ .log .debug "loaded cookies from file successfully" :: r.2)
    | .error e =>
      let r := HBNew [.WithHeadless cfg.Headless]
      (r.1, warnEvs ++ .log .warn ("failed to load cookies: " ++ e) :: r.2)

/-- Events that launch a browser process. -/
def isLaunchEv : Ev → Bool
  | .launchChrome _ _ _ => true
  | .launchBundled _ _ => true
  | _ => false

/-- Number of browser processes an event trace launches. -/
def countLaunches (evs : List Ev) : Nat :=
  (evs.filter isLaunchEv).length

/-- The port a probe event requested version info from, if any. -/
def requestedPort : ProbeEv → Option String
  | .versionRequest p _ => some p
  | _ => none

/-! ### Concrete inputs used by counterexamples and witnesses -/

/-- An environment in which the first candidate install path is executable. -/
def chromeInstalled : List String :=
  ["/Applications/Google Chrome.app/Contents/MacOS/Google Chrome"]

/-- Reachability pattern in which no candidate port answers. -/
def noPortsEnv : PortEnv :=
  { versionResp := fun _ => none, connectOk := fun _ => false }

/-- Reachability pattern in which exactly port 9223 answers with 200 and
accepts the control connection. -/
def onlyPort9223 : PortEnv :=
  { versionResp := fun p => if p = "9223" then some 200 else none,
    connectOk := fun p => p == "9223" }

/-- A filesystem with nothing in it. -/
def emptyFS : FS :=
  { dirs := [], files := [], unreadable := [] }

/-- A home directory for the concrete profile-copy scenarios. -/
def c7home : FPath := ["Users", "u"]

/-- The known sub-path of the user default profile holding the persisted
cookie database: the Default/Cookies file under the Chrome data directory. -/
def knownUserCookiesPath : FPath :=
  ["Users", "u", "Library", "Application Support", "Google", "Chrome",
   "Default", "Cookies"]

/-- The corresponding sub-path inside the automation profile. -/
def automationCookiesDest : FPath :=
  ["Users", "u", "Library", "Application Support", "Google", "Chrome-Automation",
   "Default", "Cookies"]

/-- A filesystem in which the user default profile holds a cookie database at
the known sub-path and nothing else exists. -/
def c7fs : FS :=
  { dirs := ancestors
      ["Users", "u", "Library", "Application Support", "Google", "Chrome", "Default"],
    files := [(knownUserCookiesPath, "COOKIEDB")],
    unreadable := [] }

/-- A sample cookie record for witnesses. -/
def oneCookie : NetworkCookie :=
  { name := "n", value := "v", domain := "d", path := "p" }

/-! ## Theorems -/

/-- Claim C5: for both session wrappers, close leaves the underlying browser
process and the control connection unchanged, for every state of the handle,
every world and any number of close calls. -/
theorem C5_close_noop (cb : ChromeBrowser) (cu : CustomBrowser)
    (w : BrowserWorld) (n : Nat) :
    cb.closeIter n w = w ∧ cu.closeIter n w = w
      ∧ (cb.Close w).1 = w ∧ (cu.Close w).1 = w := by
  refine ⟨?_, ?_, rfl, rfl⟩
  · induction n with
    | zero => rfl
    | succ k ih => exact ih
  · induction n with
    | zero => rfl
    | succ k ih => exact ih

/-- Claim C5, witness: a concrete handle with an owned running process and an
open connection, closed three times, leaves the world untouched. -/
theorem C5_close_noop_witness :
    ChromeBrowser.closeIter
        { browser := { controlURL := "u", target := .systemChrome },
          launcherOwned := true } 3
        { runningProcesses := [.systemChrome], openConnections := ["u"] }
      = { runningProcesses := [.systemChrome], openConnections := ["u"] } :=
  (C5_close_noop
    { browser := { controlURL := "u", target := .systemChrome },
      launcherOwned := true }
    { browser := { controlURL := "u", target := .systemChrome },
      launcherOwned := true }
    { runningProcesses := [.systemChrome], openConnections := ["u"] } 3).1

/-- Claim C9: the browser locator scans the fixed ordered candidate list and
returns the first candidate that exists and is executable; it returns the
empty result exactly when no candidate matches.  It reads only the
executable-set environment and, being a pure function of it, has no side
effects. -/
theorem C9_locator_first_match (ex : List String) :
    (findChromePath ex = "" ↔ ∀ p ∈ chromePaths, execLookPathOk ex p = false)
    ∧ (findChromePath ex ≠ "" →
        findChromePath ex ∈ chromePaths
          ∧ execLookPathOk ex (findChromePath ex) = true)
    ∧ (∀ p ∈ chromePaths, execLookPathOk ex p = true →
        chromePaths.indexOf (findChromePath ex) ≤ chromePaths.indexOf p)
    ∧ isSystemChromeAvailable ex = decide (findChromePath ex ≠ "") := by
  refine ⟨?_, ?_, ?_, rfl⟩ <;>
    cases h1 : execLookPathOk ex
        "/Applications/Google Chrome.app/Contents/MacOS/Google Chrome" <;>
    cases h2 : execLookPathOk ex
        "/Applications/Google Chrome Canary.app/Contents/MacOS/Google Chrome Canary" <;>
    cases h3 : execLookPathOk ex
        "/Applications/Chromium.app/Contents/MacOS/Chromium" <;>
    simp_all [findChromePath, chromePaths, List.find?]

/-- Claim C9, witness: with only the first candidate executable, the locator
returns it, reports availability, and no earlier candidate is skipped. -/
theorem C9_locator_first_match_witness :
    (findChromePath chromeInstalled = "" ↔
        ∀ p ∈ chromePaths, execLookPathOk chromeInstalled p = false)
    ∧ (findChromePath chromeInstalled ≠ "" →
        findChromePath chromeInstalled ∈ chromePaths
          ∧ execLookPathOk chromeInstalled (findChromePath chromeInstalled) = true)
    ∧ (∀ p ∈ chromePaths, execLookPathOk chromeInstalled p = true →
        chromePaths.indexOf (findChromePath chromeInstalled)
          ≤ chromePaths.indexOf p)
    ∧ isSystemChromeAvailable chromeInstalled
        = decide (findChromePath chromeInstalled ≠ "") :=
  C9_locator_first_match chromeInstalled

/-- An event that is an info-level or warn-level log line. -/
def isInfoOrWarnLog : Ev → Bool
  | .log .info _ => true
  | .log .warn _ => true
  | _ => false

theorem provision_events_infowarn (home : Option FPath) (fs : FS) :
    ∀ e ∈ (provisionAutomationProfile home fs).2.2, isInfoOrWarnLog e = true := by
  intro e he
  cases home <;>
    simp only [provisionAutomationProfile, getAutomationChromeDataDir,
      copyUserCookiesToAutomation, getUserChromeDataDir] at he <;>
    repeat' split at he
  all_goals simp only [List.mem_append, List.mem_cons, List.not_mem_nil,
    or_false, false_or] at he
  all_goals
    first
      | exact (by rcases he with rfl | rfl | rfl | rfl <;> rfl)
      | exact (by rcases he with (rfl | rfl) | rfl | rfl <;> rfl)

theorem bad_cookie_load_error (cf : CookieFile) (h : isBadCookieFile cf = true) :
    ∃ e, LoadCookies cf = .error e := by
  cases cf with
  | missing => exact ⟨_, rfl⟩
  | unreadable => exact ⟨_, rfl⟩
  | malformed raw => exact ⟨_, rfl⟩
  | wellformed records => simp [isBadCookieFile] at h

/-- Claim C1, counterexample: with no candidate port reachable, the
existing-instance attach path does not fall through to an isolated launch; it
terminates the process with a fatal log. -/
theorem C1_falsified :
    connectToExistingChrome noPortsEnv = none
    ∧ (NewChromeBrowserAttach noPortsEnv).1 = Outcome.fatalAbort attachFatalMsg :=
  ⟨rfl, rfl⟩

/-- Claim C1, amended: a locator failure inside NewBrowserWithConfig is
recoverable and falls through to the bundled-default path, which still returns
a session; but an existing-instance attach failure in the attach-based
NewChromeBrowser aborts the process fatally instead of falling through to an
isolated launch, and a locator failure in the launch-based NewChromeBrowser
aborts the process fatally instead of falling through to the bundled
default. -/
theorem C1_fallback_amended (cfg : Config) (ex : List String) (cf : CookieFile)
    (env : PortEnv) (headless : Bool) (home : Option FPath) (fs : FS) :
    (cfg.UseSystemChrome = true → findChromePath ex = "" →
      (NewBrowserWithConfig cfg ex cf).1.target = ProcKind.bundled
      ∧ Ev.log .warn "System Chrome not found or not available, falling back to default Chromium"
          ∈ (NewBrowserWithConfig cfg ex cf).2
      ∧ ∃ hl wc, Ev.launchBundled hl wc ∈ (NewBrowserWithConfig cfg ex cf).2)
    ∧ (connectToExistingChrome env = none →
        (NewChromeBrowserAttach env).1 = Outcome.fatalAbort attachFatalMsg)
    ∧ (findChromePath ex = "" →
        (NewChromeBrowserLaunch headless ex home fs cf).1
          = Outcome.fatalAbort "System Chrome not found") := by
  refine ⟨?_, ?_, ?_⟩
  · intro h1 h2
    have hav : isSystemChromeAvailable ex = false := by
      simp [isSystemChromeAvailable, h2]
    cases hl : LoadCookies cf with
    | ok records =>
      refine ⟨?_, ?_, cfg.Headless, true, ?_⟩ <;>
        simp [NewBrowserWithConfig, h1, hav, hl, HBNew]
    | error e =>
      refine ⟨?_, ?_, cfg.Headless, false, ?_⟩ <;>
        simp [NewBrowserWithConfig, h1, hav, hl, HBNew]
  · intro h
    simp [NewChromeBrowserAttach, h]
  · intro h
    simp [NewChromeBrowserLaunch, h]

/-- Claim C1, witness for the amended statement: with no executable candidate
and no reachable port, the orchestrator still hands back a bundled session
with the fallback warning, while both NewChromeBrowser revisions abort. -/
theorem C1_fallback_amended_witness :
    (NewBrowserWithConfig (NewConfig true) [] CookieFile.missing).1.target
        = ProcKind.bundled
    ∧ Ev.log .warn "System Chrome not found or not available, falling back to default Chromium"
        ∈ (NewBrowserWithConfig (NewConfig true) [] CookieFile.missing).2
    ∧ (∃ hl wc, Ev.launchBundled hl wc
        ∈ (NewBrowserWithConfig (NewConfig true) [] CookieFile.missing).2)
    ∧ (NewChromeBrowserAttach noPortsEnv).1 = Outcome.fatalAbort attachFatalMsg
    ∧ (NewChromeBrowserLaunch true [] none emptyFS CookieFile.missing).1
        = Outcome.fatalAbort "System Chrome not found" := by
  have h := C1_fallback_amended (NewConfig true) [] CookieFile.missing noPortsEnv
    true none emptyFS
  exact ⟨(h.1 rfl rfl).1, (h.1 rfl rfl).2.1, (h.1 rfl rfl).2.2,
    h.2.1 rfl, h.2.2 rfl⟩

theorem isLaunchEv_false_of_infowarn (e : Ev) (h : isInfoOrWarnLog e = true) :
    isLaunchEv e = false := by
  cases e with
  | log lvl msg => rfl
  | _ => simp [isInfoOrWarnLog] at h

theorem filter_launch_provision (home : Option FPath) (fs : FS) :
    (provisionAutomationProfile home fs).2.2.filter isLaunchEv = [] := by
  rw [List.filter_eq_nil_iff]
  intro e he
  simp [isLaunchEv_false_of_infowarn e (provision_events_infowarn home fs e he)]

theorem filter_launch_loadCookies (t : ProcKind) (cf : CookieFile) :
    (loadCookiesForBrowser t cf).filter isLaunchEv = [] := by
  cases h : LoadCookies cf <;> simp [loadCookiesForBrowser, h, isLaunchEv]

theorem loadCookies_event_not_launch (t : ProcKind) (cf : CookieFile) (e : Ev)
    (he : e ∈ loadCookiesForBrowser t cf) : isLaunchEv e = false := by
  cases h : LoadCookies cf <;> simp [loadCookiesForBrowser, h] at he <;>
    subst he <;> rfl

/-- Claim C2, counterexample: with headless configured true and system Chrome
available, the browser handed back by NewBrowserWithConfig was launched with
headless false. -/
theorem C2_falsified :
    (NewConfig true).Headless = true
    ∧ (NewConfig true).UseSystemChrome = true
    ∧ isSystemChromeAvailable chromeInstalled = true
    ∧ (NewBrowserWithConfig (NewConfig true) chromeInstalled
        CookieFile.missing).1.launchedHeadless = false :=
  ⟨rfl, rfl, by decide, by decide⟩

/-- Claim C2, amended: the configured headless mode is honoured by the
default-fallback path and by the isolated launch (the only chrome-launch
event of NewChromeBrowserLaunch carries it), and attached sessions launch
nothing; but on the system-Chrome path of NewBrowserWithConfig only the
separately launched system Chrome gets the configured mode, while the browser
handed back to the caller is always launched with headless false. -/
theorem C2_headless_amended (cfg : Config) (ex : List String) (cf : CookieFile)
    (headless : Bool) (home : Option FPath) (fs : FS) (env : PortEnv) :
    (¬ (cfg.UseSystemChrome = true ∧ isSystemChromeAvailable ex = true) →
      (NewBrowserWithConfig cfg ex cf).1.launchedHeadless = cfg.Headless
        ∧ (NewBrowserWithConfig cfg ex cf).1.target = ProcKind.bundled)
    ∧ (cfg.UseSystemChrome = true → isSystemChromeAvailable ex = true →
        Ev.launchChrome (some (findChromePath ex)) cfg.Headless none
            ∈ (NewBrowserWithConfig cfg ex cf).2
          ∧ (NewBrowserWithConfig cfg ex cf).1.launchedHeadless = false)
    ∧ (findChromePath ex ≠ "" →
        Ev.launchChrome (some (findChromePath ex)) headless
            (some (provisionAutomationProfile home fs).1)
          ∈ (NewChromeBrowserLaunch headless ex home fs cf).2.2
          ∧ ∀ b hl d, Ev.launchChrome b hl d
              ∈ (NewChromeBrowserLaunch headless ex home fs cf).2.2 →
                hl = headless)
    ∧ countLaunches (NewChromeBrowserAttach env).2 = 0 := by
  refine ⟨?_, ?_, ?_, ?_⟩
  · intro h
    have hb : (cfg.UseSystemChrome && isSystemChromeAvailable ex) = false := by
      cases hc : cfg.UseSystemChrome <;>
        cases ha : isSystemChromeAvailable ex <;> simp_all
    cases hl : LoadCookies cf <;>
      simp [NewBrowserWithConfig, hb, hl, HBNew]
  · intro h1 h2
    have h2' : ¬ findChromePath ex = "" := by
      simpa [isSystemChromeAvailable] using h2
    constructor
    · simp [NewBrowserWithConfig, h1, h2, h2', createCompatibleBrowser, HBNew]
    · simp [NewBrowserWithConfig, h1, h2, h2', createCompatibleBrowser, HBNew]
  · intro h
    constructor
    · simp [NewChromeBrowserLaunch, h, provisionAutomationProfile]
    · intro b hl d hm
      simp only [NewChromeBrowserLaunch, if_neg h, List.mem_cons,
        List.mem_append] at hm
      rcases hm with (hm | hm) | hm | hm | hm
      · simp at hm
      · exact absurd (isLaunchEv_false_of_infowarn _
          (provision_events_infowarn home fs _ hm)) (by simp [isLaunchEv])
      · simp only [Ev.launchChrome.injEq] at hm
        exact hm.2.1
      · simp at hm
      · exact absurd (loadCookies_event_not_launch _ _ _ hm)
          (by simp [isLaunchEv])
  · cases h : connectToExistingChrome env <;>
      simp [NewChromeBrowserAttach, h, countLaunches, isLaunchEv]

/-- Claim C2, witness for the amended statement: concrete runs of the default
path (headless true honoured), the system path (handed-back browser headless
false), the isolated launch (headless true honoured) and an attach (no
launch). -/
theorem C2_headless_amended_witness :
    (NewBrowserWithConfig (NewConfig true) [] CookieFile.missing).1.launchedHeadless
        = (NewConfig true).Headless
    ∧ Ev.launchChrome (some (findChromePath chromeInstalled))
        (NewConfig true).Headless none
        ∈ (NewBrowserWithConfig (NewConfig true) chromeInstalled CookieFile.missing).2
    ∧ (NewBrowserWithConfig (NewConfig true) chromeInstalled
        CookieFile.missing).1.launchedHeadless = false
    ∧ Ev.launchChrome (some (findChromePath chromeInstalled)) true
        (some (provisionAutomationProfile none emptyFS).1)
        ∈ (NewChromeBrowserLaunch true chromeInstalled none emptyFS CookieFile.missing).2.2
    ∧ countLaunches (NewChromeBrowserAttach onlyPort9223).2 = 0 := by
  have h1 := C2_headless_amended (NewConfig true) [] CookieFile.missing true
    none emptyFS onlyPort9223
  have h2 := C2_headless_amended (NewConfig true) chromeInstalled
    CookieFile.missing true none emptyFS onlyPort9223
  exact ⟨(h1.1 (by decide)).1, (h2.2.1 rfl (by decide)).1,
    (h2.2.1 rfl (by decide)).2, (h2.2.2.1 (by decide)).1, h2.2.2.2⟩

/-- Claim C3, counterexample: one run of NewBrowserWithConfig on the
system-Chrome path launches two browser processes, the system Chrome and the
bundled default browser of the compatible wrapper. -/
theorem C3_falsified :
    (NewConfig true).UseSystemChrome = true
    ∧ isSystemChromeAvailable chromeInstalled = true
    ∧ countLaunches (NewBrowserWithConfig (NewConfig true) chromeInstalled
        CookieFile.missing).2 = 2 :=
  ⟨rfl, by decide, by decide⟩

/-- Claim C3, amended: an attach launches no process and its handle owns no
launcher; the isolated launch starts at most one process; the default
fallback starts exactly one; but the system-Chrome path of
NewBrowserWithConfig starts two, the system Chrome and then the bundled
default browser it hands back. -/
theorem C3_single_launch_amended (cfg : Config) (ex : List String)
    (cf : CookieFile) (headless : Bool) (home : Option FPath) (fs : FS)
    (env : PortEnv) :
    (countLaunches (NewChromeBrowserAttach env).2 = 0
      ∧ ∀ cb, (NewChromeBrowserAttach env).1 = Outcome.ok cb →
          cb.launcherOwned = false)
    ∧ countLaunches (NewChromeBrowserLaunch headless ex home fs cf).2.2 ≤ 1
    ∧ (¬ (cfg.UseSystemChrome = true ∧ isSystemChromeAvailable ex = true) →
        countLaunches (NewBrowserWithConfig cfg ex cf).2 = 1)
    ∧ (cfg.UseSystemChrome = true → isSystemChromeAvailable ex = true →
        countLaunches (NewBrowserWithConfig cfg ex cf).2 = 2) := by
  refine ⟨?_, ?_, ?_, ?_⟩
  · cases h : connectToExistingChrome env <;>
      simp [NewChromeBrowserAttach, h, countLaunches, isLaunchEv]
  · by_cases h : findChromePath ex = "" <;>
      simp [NewChromeBrowserLaunch, h, countLaunches, List.filter_append,
        filter_launch_provision, filter_launch_loadCookies, isLaunchEv]
  · intro h
    cases hu : cfg.UseSystemChrome with
    | false =>
      cases hl : LoadCookies cf <;>
        simp [NewBrowserWithConfig, hu, hl, HBNew, countLaunches, isLaunchEv]
    | true =>
      have ha : isSystemChromeAvailable ex = false := by
        cases ha : isSystemChromeAvailable ex
        · rfl
        · exact absurd ⟨hu, ha⟩ h
      cases hl : LoadCookies cf <;>
        simp [NewBrowserWithConfig, hu, ha, hl, HBNew, countLaunches, isLaunchEv]
  · intro h1 h2
    have h2' : ¬ findChromePath ex = "" := by
      simpa [isSystemChromeAvailable] using h2
    simp [NewBrowserWithConfig, h1, h2, h2', createCompatibleBrowser, HBNew,
      countLaunches, List.filter_append, filter_launch_loadCookies, isLaunchEv]

/-- Claim C3, witness for the amended statement: concrete runs showing zero
launches on attach, one on the isolated launch and the default fallback, and
two on the system-Chrome path. -/
theorem C3_single_launch_amended_witness :
    countLaunches (NewChromeBrowserAttach noPortsEnv).2 = 0
    ∧ countLaunches (NewChromeBrowserLaunch true chromeInstalled none emptyFS
        CookieFile.missing).2.2 ≤ 1
    ∧ countLaunches (NewBrowserWithConfig (NewConfig true) [] CookieFile.missing).2 = 1
    ∧ countLaunches (NewBrowserWithConfig (NewConfig true) chromeInstalled
        CookieFile.missing).2 = 2 := by
  have h1 := C3_single_launch_amended (NewConfig true) [] CookieFile.missing
    true none emptyFS noPortsEnv
  have h3 := C3_single_launch_amended (NewConfig true) chromeInstalled
    CookieFile.missing true none emptyFS noPortsEnv
  exact ⟨h1.1.1, h3.2.1, h1.2.2.1 (by decide), h3.2.2.2 rfl (by decide)⟩

/-- Claim C10: on the system-Chrome path, the browser NewBrowserWithConfig
hands back is a freshly constructed bundled default instance, not connected
to the system Chrome that was just launched, and the cookies that were loaded
into the launched Chrome control connection are absent from it. -/
theorem C10_system_chrome_disconnect (cfg : Config) (ex : List String)
    (records : List NetworkCookie)
    (h1 : cfg.UseSystemChrome = true) (h2 : isSystemChromeAvailable ex = true) :
    (NewBrowserWithConfig cfg ex (CookieFile.wellformed records)).1
      = { target := ProcKind.bundled, launchedHeadless := false,
          injectedCookies := none }
    ∧ Ev.setCookies ProcKind.systemChrome records.length
        ∈ (NewBrowserWithConfig cfg ex (CookieFile.wellformed records)).2
    ∧ ∀ n, Ev.setCookies ProcKind.bundled n
        ∉ (NewBrowserWithConfig cfg ex (CookieFile.wellformed records)).2 := by
  have h2' : ¬ findChromePath ex = "" := by
    simpa [isSystemChromeAvailable] using h2
  refine ⟨?_, ?_, ?_⟩ <;>
    simp [NewBrowserWithConfig, h1, h2, h2', createCompatibleBrowser, HBNew,
      loadCookiesForBrowser, LoadCookies]

/-- Claim C10, witness: concrete system-Chrome run with one cookie on file;
the cookie reaches the launched Chrome and the handed-back browser has
none. -/
theorem C10_system_chrome_disconnect_witness :
    (NewBrowserWithConfig (NewConfig true) chromeInstalled
        (CookieFile.wellformed [oneCookie])).1
      = { target := ProcKind.bundled, launchedHeadless := false,
          injectedCookies := none }
    ∧ Ev.setCookies ProcKind.systemChrome 1
        ∈ (NewBrowserWithConfig (NewConfig true) chromeInstalled
            (CookieFile.wellformed [oneCookie])).2
    ∧ ∀ n, Ev.setCookies ProcKind.bundled n
        ∉ (NewBrowserWithConfig (NewConfig true) chromeInstalled
            (CookieFile.wellformed [oneCookie])).2 :=
  C10_system_chrome_disconnect (NewConfig true) chromeInstalled [oneCookie]
    rfl (by decide)

/-- Claim C6: for a missing, unreadable or malformed cookie file, cookie
loading is recoverable on every construction path: the warning is logged, no
cookies are injected anywhere, the handed-back browser carries none, and no
abort happens (the orchestrator is total and the launch path still returns an
ok handle). -/
theorem C6_cookie_load_recoverable (cfg : Config) (ex : List String)
    (cf : CookieFile) (headless : Bool) (home : Option FPath) (fs : FS)
    (hbad : isBadCookieFile cf = true) :
    ((NewBrowserWithConfig cfg ex cf).1.injectedCookies = none
      ∧ (∃ e, Ev.log .warn ("failed to load cookies: " ++ e)
          ∈ (NewBrowserWithConfig cfg ex cf).2)
      ∧ ∀ t n, Ev.setCookies t n ∉ (NewBrowserWithConfig cfg ex cf).2)
    ∧ (findChromePath ex ≠ "" →
        (∃ cb, (NewChromeBrowserLaunch headless ex home fs cf).1 = Outcome.ok cb)
        ∧ (∃ e, Ev.log .warn ("failed to load cookies: " ++ e)
            ∈ (NewChromeBrowserLaunch headless ex home fs cf).2.2)
        ∧ ∀ t n, Ev.setCookies t n
            ∉ (NewChromeBrowserLaunch headless ex home fs cf).2.2) := by
  obtain ⟨e0, he0⟩ := bad_cookie_load_error cf hbad
  constructor
  · by_cases hb : (cfg.UseSystemChrome && isSystemChromeAvailable ex) = true
    · have h2' : ¬ findChromePath ex = "" := by
        have := (Bool.and_eq_true _ _).mp hb
        simpa [isSystemChromeAvailable] using this.2
      refine ⟨?_, ⟨e0, ?_⟩, ?_⟩ <;>
        simp [NewBrowserWithConfig, hb, h2', createCompatibleBrowser, HBNew,
          loadCookiesForBrowser, he0]
    · have hb' : (cfg.UseSystemChrome && isSystemChromeAvailable ex) = false := by
        simpa using hb
      refine ⟨?_, ⟨e0, ?_⟩, ?_⟩ <;>
        simp [NewBrowserWithConfig, hb', HBNew, he0]
  · intro hc
    refine ⟨⟨launchedChromeHandle, ?_⟩, ⟨e0, ?_⟩, ?_⟩
    · simp [NewChromeBrowserLaunch, hc]
    · simp [NewChromeBrowserLaunch, hc, loadCookiesForBrowser, he0]
    · intro t n hm
      simp only [NewChromeBrowserLaunch, if_neg hc, List.mem_cons,
        List.mem_append, loadCookiesForBrowser, he0] at hm
      rcases hm with (hm | hm) | hm | hm | hm
      · simp at hm
      · have := provision_events_infowarn home fs _ hm
        simp [isInfoOrWarnLog] at this
      · simp at hm
      · simp at hm
      · simp at hm

/-- Claim C6, witness: a malformed cookie file on both the missing-Chrome
default path and the isolated launch path yields the warning, zero injected
cookies and no abort. -/
theorem C6_cookie_load_recoverable_witness :
    ((NewBrowserWithConfig (NewConfig true) chromeInstalled
        (CookieFile.malformed "not json")).1.injectedCookies = none
      ∧ (∃ e, Ev.log .warn ("failed to load cookies: " ++ e)
          ∈ (NewBrowserWithConfig (NewConfig true) chromeInstalled
              (CookieFile.malformed "not json")).2)
      ∧ ∀ t n, Ev.setCookies t n
          ∉ (NewBrowserWithConfig (NewConfig true) chromeInstalled
              (CookieFile.malformed "not json")).2)
    ∧ ((∃ cb, (NewChromeBrowserLaunch false chromeInstalled (some c7home)
          emptyFS (CookieFile.malformed "not json")).1 = Outcome.ok cb)
      ∧ (∃ e, Ev.log .warn ("failed to load cookies: " ++ e)
          ∈ (NewChromeBrowserLaunch false chromeInstalled (some c7home)
              emptyFS (CookieFile.malformed "not json")).2.2)
      ∧ ∀ t n, Ev.setCookies t n
          ∉ (NewChromeBrowserLaunch false chromeInstalled (some c7home)
              emptyFS (CookieFile.malformed "not json")).2.2) := by
  have h := C6_cookie_load_recoverable (NewConfig true) chromeInstalled
    (CookieFile.malformed "not json") false (some c7home) emptyFS rfl
  exact ⟨h.1, h.2 (by decide)⟩

theorem probePorts_result (env : PortEnv) (l : List String) :
    (probePorts env l).1
      = (l.find? (portWorks env)).map (fun p => "http://localhost:" ++ p) := by
  induction l with
  | nil => rfl
  | cons p rest ih =>
    cases hv : env.versionResp p with
    | none =>
      have hw : portWorks env p = false := by simp [portWorks, hv]
      simp [probePorts, hv, hw, ih]
    | some code =>
      by_cases hc : code = 200
      · subst hc
        by_cases hk : env.connectOk p = true
        · have hw : portWorks env p = true := by simp [portWorks, hv, hk]
          simp [probePorts, hv, hk, hw]
        · have hk' : env.connectOk p = false := by simpa using hk
          have hw : portWorks env p = false := by simp [portWorks, hv, hk']
          simp [probePorts, hv, hk', hw, ih]
      · have hw : portWorks env p = false := by simp [portWorks, hv, hc]
        simp [probePorts, hv, hc, hw, ih]

theorem probePorts_requests (env : PortEnv) (l : List String) :
    ∃ n, ((probePorts env l).2.filterMap requestedPort) = l.take n := by
  induction l with
  | nil => exact ⟨0, rfl⟩
  | cons p rest ih =>
    obtain ⟨n, hn⟩ := ih
    cases hv : env.versionResp p with
    | none =>
      exact ⟨n + 1, by simp [probePorts, hv, requestedPort, hn]⟩
    | some code =>
      by_cases hc : code = 200
      · subst hc
        by_cases hk : env.connectOk p = true
        · exact ⟨1, by simp [probePorts, hv, hk, requestedPort]⟩
        · have hk' : env.connectOk p = false := by simpa using hk
          exact ⟨n + 1, by simp [probePorts, hv, hk', requestedPort, hn]⟩
      · exact ⟨n + 1, by simp [probePorts, hv, hc, requestedPort, hn]⟩

theorem probePorts_timeout (env : PortEnv) (l : List String) (p : String)
    (t : Nat) (h : ProbeEv.versionRequest p t ∈ (probePorts env l).2) :
    t = perPortTimeoutSeconds := by
  induction l with
  | nil => simp [probePorts] at h
  | cons q rest ih =>
    cases hv : env.versionResp q with
    | none =>
      simp only [probePorts, hv, List.mem_cons] at h
      rcases h with h | h
      · exact (ProbeEv.versionRequest.injEq _ _ _ _).mp h |>.2
      · exact ih h
    | some code =>
      by_cases hc : code = 200
      · subst hc
        by_cases hk : env.connectOk q = true
        · simp [probePorts, hv, hk] at h
          exact h.2
        · have hk' : env.connectOk q = false := by simpa using hk
          simp [probePorts, hv, hk'] at h
          rcases h with ⟨_, ht⟩ | h
          · exact ht
          · exact ih h
      · simp [probePorts, hv, hc] at h
        rcases h with ⟨_, ht⟩ | h
        · exact ht
        · exact ih h

theorem probePorts_connected (env : PortEnv) (l : List String) (p : String)
    (h : ProbeEv.connected p ∈ (probePorts env l).2) :
    (probePorts env l).1 = some ("http://localhost:" ++ p) := by
  induction l with
  | nil => simp [probePorts] at h
  | cons q rest ih =>
    cases hv : env.versionResp q with
    | none =>
      simp only [probePorts, hv, List.mem_cons] at h ⊢
      rcases h with h | h
      · simp at h
      · exact ih h
    | some code =>
      by_cases hc : code = 200
      · subst hc
        by_cases hk : env.connectOk q = true
        · simp [probePorts, hv, hk] at h ⊢
          rw [h]
        · have hk' : env.connectOk q = false := by simpa using hk
          simp [probePorts, hv, hk'] at h ⊢
          exact ih h
      · simp [probePorts, hv, hc] at h ⊢
        exact ih h

theorem probePorts_skip_bad (env : PortEnv) (l : List String) (p : String)
    (c : Nat) (hv : env.versionResp p = some c) (hc : c ≠ 200) :
    ProbeEv.connectAttempt p ∉ (probePorts env l).2
    ∧ ProbeEv.connected p ∉ (probePorts env l).2 := by
  induction l with
  | nil => simp [probePorts]
  | cons q rest ih =>
    cases hq : env.versionResp q with
    | none =>
      simp [probePorts, hq]
      exact ⟨ih.1, ih.2⟩
    | some code =>
      by_cases h200 : code = 200
      · subst h200
        have hne : ¬ p = q := by
          intro hpq
          rw [hpq, hq] at hv
          simp at hv
          exact hc hv.symm
        by_cases hk : env.connectOk q = true
        · simp [probePorts, hq, hk, hne]
        · have hk' : env.connectOk q = false := by simpa using hk
          simp [probePorts, hq, hk', hne]
          exact ⟨ih.1, ih.2⟩
      · simp [probePorts, hq, h200]
        exact ⟨ih.1, ih.2⟩

theorem probePorts_bodyClosed (env : PortEnv) (l : List String) (p : String)
    (t : Nat) (hreq : ProbeEv.versionRequest p t ∈ (probePorts env l).2)
    (hv : env.versionResp p ≠ none) :
    ProbeEv.bodyClosed p ∈ (probePorts env l).2 := by
  induction l with
  | nil => simp [probePorts] at hreq
  | cons q rest ih =>
    cases hq : env.versionResp q with
    | none =>
      simp only [probePorts, hq, List.mem_cons] at hreq ⊢
      rcases hreq with h | h
      · obtain ⟨h1, _⟩ := (ProbeEv.versionRequest.injEq _ _ _ _).mp h
        subst h1
        exact absurd hq hv
      · exact Or.inr (ih h)
    | some code =>
      by_cases hc : code = 200
      · subst hc
        by_cases hk : env.connectOk q = true
        · simp [probePorts, hq, hk] at hreq ⊢
          exact hreq.1
        · have hk' : env.connectOk q = false := by simpa using hk
          simp [probePorts, hq, hk'] at hreq ⊢
          rcases hreq with ⟨hpq, _⟩ | h
          · exact Or.inl hpq
          · exact Or.inr (ih h)
      · simp [probePorts, hq, hc] at hreq ⊢
        rcases hreq with ⟨hpq, _⟩ | h
        · exact Or.inl hpq
        · exact Or.inr (ih h)

/-- Claim C4: existing-instance attachment probes the fixed candidate ports
in list order with the 2-second per-port timeout, attaches to the
lowest-indexed port whose version-info request returns 200 and whose control
connection opens (the first match of the candidate list), closes the response
body of every answered request, never dials and never holds a control
connection to a port with a non-success response, keeps a control connection
only to the attached port, and returns the no-instance error exactly when no
port yields a working connection. -/
theorem C4_port_probe (env : PortEnv) :
    connectToExistingChrome env
      = (ports.find? (portWorks env)).map (fun p => "http://localhost:" ++ p)
    ∧ (connectToExistingChrome env = none ↔
        ∀ p ∈ ports, portWorks env p = false)
    ∧ (∃ n, ((connectToExistingChromeEvents env).filterMap requestedPort)
        = ports.take n)
    ∧ (∀ p t, ProbeEv.versionRequest p t ∈ connectToExistingChromeEvents env →
        t = perPortTimeoutSeconds)
    ∧ (∀ p c, env.versionResp p = some c → c ≠ 200 →
        ProbeEv.connectAttempt p ∉ connectToExistingChromeEvents env
        ∧ ProbeEv.connected p ∉ connectToExistingChromeEvents env)
    ∧ (∀ p t, ProbeEv.versionRequest p t ∈ connectToExistingChromeEvents env →
        env.versionResp p ≠ none →
        ProbeEv.bodyClosed p ∈ connectToExistingChromeEvents env)
    ∧ (∀ p, ProbeEv.connected p ∈ connectToExistingChromeEvents env →
        connectToExistingChrome env = some ("http://localhost:" ++ p)) := by
  refine ⟨probePorts_result env ports, ?_,
    probePorts_requests env ports,
    fun p t h => probePorts_timeout env ports p t h,
    fun p c hv hc => probePorts_skip_bad env ports p c hv hc,
    fun p t h hv => probePorts_bodyClosed env ports p t h hv,
    fun p h => probePorts_connected env ports p h⟩
  rw [connectToExistingChrome, probePorts_result env ports]
  simp [List.find?_eq_none]

/-- Reachability pattern for the C4 witness: 9222 answers 404, 9223 answers
200 and accepts the control connection, 9224 does not answer. -/
def mixedPortsEnv : PortEnv :=
  { versionResp := fun p =>
      if p = "9222" then some 404 else if p = "9223" then some 200 else none,
    connectOk := fun p => p == "9223" }

/-- Claim C4, witness: on the concrete pattern where 9222 responds
non-success and 9223 works, the probe attaches to 9223, uses the 2-second
timeout on the request it made to 9222, closes that response body, and holds
no connection to 9222. -/
theorem C4_port_probe_witness :
    connectToExistingChrome mixedPortsEnv = some "http://localhost:9223"
    ∧ (ProbeEv.versionRequest "9222" perPortTimeoutSeconds
        ∈ connectToExistingChromeEvents mixedPortsEnv)
    ∧ ProbeEv.bodyClosed "9222" ∈ connectToExistingChromeEvents mixedPortsEnv
    ∧ ProbeEv.connectAttempt "9222" ∉ connectToExistingChromeEvents mixedPortsEnv
    ∧ ProbeEv.connected "9222" ∉ connectToExistingChromeEvents mixedPortsEnv := by
  have h := C4_port_probe mixedPortsEnv
  have hreq : ProbeEv.versionRequest "9222" perPortTimeoutSeconds
      ∈ connectToExistingChromeEvents mixedPortsEnv := by decide
  refine ⟨?_, hreq, ?_, ?_, ?_⟩
  · rw [h.1]
    rfl
  · exact h.2.2.2.2.2.1 "9222" perPortTimeoutSeconds hreq (by decide)
  · exact (h.2.2.2.2.1 "9222" 404 rfl (by decide)).1
  · exact (h.2.2.2.2.1 "9222" 404 rfl (by decide)).2

/-- Claim C7: evaluation at the failing input.  With the user default profile
holding its cookie database at the known sub-path Default/Cookies of the
Chrome data directory, the provisioning built from the cited revision of
getUserChromeDataDir (the one returning the Default profile directory, lines
263-275) stats the doubled path Default/Default/Cookies, concludes no user
cookie file exists, skips the copy and leaves the automation profile without
the database; the later revision of the same helper (lines 431-443) copies it
byte for byte.  The cited code therefore contradicts its own doc comments
(copy the user Chrome cookies) and the claim. -/
theorem C7_user_cookie_copy_missed :
    FS.fileExists c7fs knownUserCookiesPath = true
    ∧ getFile (provisionAutomationProfileDefault (some c7home) c7fs).2.1.files
        automationCookiesDest = none
    ∧ Ev.log .info "No user cookies file found to copy"
        ∈ (provisionAutomationProfileDefault (some c7home) c7fs).2.2
    ∧ getFile (provisionAutomationProfile (some c7home) c7fs).2.1.files
        automationCookiesDest = some "COOKIEDB" := by
  refine ⟨?_, ?_, ?_, ?_⟩ <;> decide

theorem getFile_setFile (l : List (FPath × String)) (k : FPath) (v : String)
    (k2 : FPath) :
    getFile (setFile l k v) k2 = if k2 = k then some v else getFile l k2 := by
  induction l with
  | nil =>
    simp only [setFile, getFile]
    by_cases h : k = k2
    · subst h
      simp
    · rw [if_neg h, if_neg (fun he => h he.symm)]
  | cons kv rest ih =>
    by_cases h : kv.1 = k
    · rw [setFile, if_pos h]
      by_cases h2 : k2 = k
      · subst h2
        simp [getFile]
      · rw [getFile, if_neg (fun he => h2 he.symm), if_neg h2, getFile,
          if_neg (by rw [h]; exact fun he => h2 he.symm)]
    · rw [setFile, if_neg h, getFile]
      by_cases h2 : kv.1 = k2
      · rw [if_pos h2, if_neg (fun he => h (h2.trans he)), getFile, if_pos h2]
      · rw [if_neg h2, ih]
        by_cases h3 : k2 = k
        · rw [if_pos h3, if_pos h3]
        · rw [if_neg h3, if_neg h3, getFile, if_neg h2]

theorem setFile_idem (l : List (FPath × String)) (k : FPath) (v : String) :
    setFile (setFile l k v) k v = setFile l k v := by
  induction l with
  | nil => simp [setFile]
  | cons kv rest ih =>
    by_cases h : kv.1 = k
    · simp [setFile, h]
    · simp [setFile, h, ih]

theorem memb_iff (x : FPath) (ds : List FPath) : memb x ds = true ↔ x ∈ ds := by
  induction ds with
  | nil => simp [memb]
  | cons y ys ih =>
    simp only [memb, List.mem_cons]
    by_cases h : y = x
    · subst h
      simp
    · rw [if_neg h, ih]
      constructor
      · exact fun hx => Or.inr hx
      · rintro (rfl | hx)
        · exact absurd rfl h
        · exact hx

theorem mem_insertDirs (x : FPath) (ds l : List FPath) :
    x ∈ insertDirs ds l ↔ (x ∈ ds ∨ x ∈ l) := by
  induction l generalizing ds with
  | nil => simp [insertDirs]
  | cons q t ih =>
    simp only [insertDirs]
    by_cases hq : memb q ds
    · rw [if_pos hq, ih]
      have hqm : q ∈ ds := (memb_iff q ds).1 hq
      simp only [List.mem_cons]
      constructor
      · rintro (h | h)
        · exact Or.inl h
        · exact Or.inr (Or.inr h)
      · rintro (h | rfl | h)
        · exact Or.inl h
        · exact Or.inl hqm
        · exact Or.inr h
    · rw [if_neg hq, ih]
      simp only [List.mem_cons]
      tauto

theorem insertDirs_no_new (ds l : List FPath)
    (h : ∀ q ∈ l, memb q ds = true) : insertDirs ds l = ds := by
  induction l with
  | nil => rfl
  | cons q t ih =>
    simp only [insertDirs, if_pos (h q (List.mem_cons.2 (Or.inl rfl)))]
    exact ih fun r hr => h r (List.mem_cons.2 (Or.inr hr))

theorem mkdirAll_none_iff (fs : FS) (p : FPath) :
    fs.mkdirAll p = none
      ↔ (ancestors p).any (fun q => fs.fileExists q) = true := by
  unfold FS.mkdirAll
  split <;> simp_all

theorem mkdirAll_some_parts (fs fs1 : FS) (p : FPath)
    (h : fs.mkdirAll p = some fs1) :
    fs1.files = fs.files ∧ fs1.unreadable = fs.unreadable
    ∧ fs1.dirs = insertDirs fs.dirs (ancestors p)
    ∧ (ancestors p).any (fun q => fs.fileExists q) = false := by
  unfold FS.mkdirAll at h
  split at h
  · exact absurd h (by simp)
  · injection h with h'
    subst h'
    refine ⟨rfl, rfl, rfl, ?_⟩
    rename_i hcond
    exact Bool.eq_false_iff.2 hcond

theorem mkdirAll_stable (fs fs1 fs2 : FS) (p : FPath)
    (h : fs.mkdirAll p = some fs1)
    (hfiles : ∀ q ∈ ancestors p, fs2.fileExists q = fs.fileExists q)
    (hdirs : ∀ q ∈ ancestors p, q ∈ fs2.dirs) :
    fs2.mkdirAll p = some fs2 := by
  obtain ⟨_, _, _, hany⟩ := mkdirAll_some_parts fs fs1 p h
  have hany2 : (ancestors p).any (fun q => fs2.fileExists q) = false := by
    rw [List.any_eq_false] at hany ⊢
    intro q hq
    rw [hfiles q hq]
    exact hany q hq
  unfold FS.mkdirAll
  rw [if_neg (by simp [hany2])]
  rw [insertDirs_no_new fs2.dirs (ancestors p)
    (fun q hq => (memb_iff q fs2.dirs).2 (hdirs q hq))]

theorem length_le_of_mem_ancestors {q p : FPath} (h : q ∈ ancestors p) :
    q.length ≤ p.length := by
  simp only [ancestors, List.mem_map, List.mem_range] at h
  obtain ⟨i, _, rfl⟩ := h
  simp [List.length_take]

theorem mem_ancestors_ne_extend {q p : FPath} (h : q ∈ ancestors p)
    (r : FPath) (hr : r ≠ []) : q ≠ p ++ r := by
  intro he
  have hlen := congrArg List.length he
  simp only [List.length_append] at hlen
  have h1 := length_le_of_mem_ancestors h
  have h2 : 0 < r.length := List.length_pos.2 hr
  omega

theorem ancestors_mono {q p : FPath} (r : FPath) (h : q ∈ ancestors p) :
    q ∈ ancestors (p ++ r) := by
  simp only [ancestors, List.mem_map, List.mem_range] at h ⊢
  obtain ⟨i, hi, rfl⟩ := h
  refine ⟨i, by simp; omega, ?_⟩
  rw [List.take_append_of_le_length (by omega)]

theorem create_some_parts (fs : FS) (p : FPath) (c : String) (fs1 : FS)
    (h : fs.create p c = some fs1) :
    fs1 = { fs with files := setFile fs.files p c }
    ∧ memb p.dropLast fs.dirs = true := by
  unfold FS.create at h
  split at h
  · refine ⟨by injection h with h'; exact h'.symm, by assumption⟩
  · exact absurd h (by simp)

theorem copyFile_ok_parts (fs : FS) (src dst : FPath) (fs1 : FS)
    (h : copyFile fs src dst = .ok fs1) :
    ∃ c, fs.openRead src = some c ∧ fs.create dst c = some fs1 := by
  unfold copyFile at h
  cases ho : fs.openRead src with
  | none => simp [ho] at h
  | some c =>
    simp only [ho] at h
    cases hc2 : fs.create dst c with
    | none => simp [hc2] at h
    | some fs2 =>
      simp only [hc2] at h
      injection h with h'
      exact ⟨c, rfl, by rw [hc2, h']⟩

theorem openRead_parts (fs : FS) (p : FPath) (c : String)
    (h : fs.openRead p = some c) :
    memb p fs.unreadable = false ∧ getFile fs.files p = some c := by
  unfold FS.openRead at h
  split at h
  · exact absurd h (by simp)
  · rename_i hcond
    exact ⟨by revert hcond; cases memb p fs.unreadable <;> simp, h⟩

theorem copyUserCookies_idem (home : Option FPath) (dir : FPath) (fs : FS) :
    copyUserCookiesToAutomation home dir
        ((copyUserCookiesToAutomation home dir fs).1)
      = copyUserCookiesToAutomation home dir fs := by
  cases hD : fs.mkdirAll (dir ++ ["Default"]) with
  | none =>
    have hres : copyUserCookiesToAutomation home dir fs
        = (fs, (getUserChromeDataDir home).2
            ++ [.log .warn "Failed to create automation Default directory"]) := by
      simp only [copyUserCookiesToAutomation, hD]
    rw [hres]
    simp only [copyUserCookiesToAutomation, hD]
  | some fsD =>
    obtain ⟨hf, hu, hd, _⟩ := mkdirAll_some_parts _ _ _ hD
    have hfe : ∀ q, fsD.fileExists q = fs.fileExists q := fun q => by
      unfold FS.fileExists
      rw [hf]
    have hdirs0 : ∀ q ∈ ancestors (dir ++ ["Default"]), q ∈ fsD.dirs := by
      intro q hq
      rw [hd]
      exact (mem_insertDirs _ _ _).2 (Or.inr hq)
    by_cases hex : fsD.fileExists ((getUserChromeDataDir home).1
        ++ ["Default", "Cookies"]) = false
    · have hres : copyUserCookiesToAutomation home dir fs
          = (fsD, (getUserChromeDataDir home).2
              ++ [.log .info "No user cookies file found to copy"]) := by
        simp only [copyUserCookiesToAutomation, hD, if_pos hex]
      rw [hres]
      have hD2 : fsD.mkdirAll (dir ++ ["Default"]) = some fsD :=
        mkdirAll_stable fs fsD fsD _ hD (fun q _ => hfe q) hdirs0
      simp only [copyUserCookiesToAutomation, hD2, if_pos hex]
    · cases hcp : copyFile fsD ((getUserChromeDataDir home).1
          ++ ["Default", "Cookies"]) (dir ++ ["Default"] ++ ["Cookies"]) with
      | error e =>
        have hres : copyUserCookiesToAutomation home dir fs
            = (fsD, (getUserChromeDataDir home).2
                ++ [.log .warn "Failed to copy user cookies"]) := by
          simp only [copyUserCookiesToAutomation, hD, if_neg hex, hcp]
        rw [hres]
        have hD2 : fsD.mkdirAll (dir ++ ["Default"]) = some fsD :=
          mkdirAll_stable fs fsD fsD _ hD (fun q _ => hfe q) hdirs0
        simp only [copyUserCookiesToAutomation, hD2, if_neg hex, hcp]
      | ok fs2 =>
        obtain ⟨c, ho, hcr⟩ := copyFile_ok_parts _ _ _ _ hcp
        obtain ⟨hfs2, hmb⟩ := create_some_parts _ _ _ _ hcr
        obtain ⟨hur, hgf⟩ := openRead_parts _ _ _ ho
        have hfs2files : fs2.files
            = setFile fsD.files (dir ++ ["Default"] ++ ["Cookies"]) c := by
          rw [hfs2]
        have hfs2dirs : fs2.dirs = fsD.dirs := by rw [hfs2]
        have hfs2unread : fs2.unreadable = fsD.unreadable := by rw [hfs2]
        have hres : copyUserCookiesToAutomation home dir fs
            = (fs2, (getUserChromeDataDir home).2
                ++ [.log .info "Successfully copied user cookies to automation profile"]) := by
          simp only [copyUserCookiesToAutomation, hD, if_neg hex, hcp]
        rw [hres]
        have hdest_ne : ∀ q ∈ ancestors (dir ++ ["Default"]),
            q ≠ dir ++ ["Default"] ++ ["Cookies"] := fun q hq =>
          mem_ancestors_ne_extend hq ["Cookies"] (by simp)
        have hD2 : fs2.mkdirAll (dir ++ ["Default"]) = some fs2 := by
          refine mkdirAll_stable fs fsD fs2 _ hD (fun q hq => ?_)
            (fun q hq => by rw [hfs2dirs]; exact hdirs0 q hq)
          unfold FS.fileExists
          rw [hfs2files, getFile_setFile, if_neg (hdest_ne q hq), hf]
        have hexT2 : fs2.fileExists ((getUserChromeDataDir home).1
            ++ ["Default", "Cookies"]) = true := by
          unfold FS.fileExists
          rw [hfs2files, getFile_setFile]
          by_cases hUd : (getUserChromeDataDir home).1 ++ ["Default", "Cookies"]
              = dir ++ ["Default"] ++ ["Cookies"]
          · rw [if_pos hUd]
            rfl
          · rw [if_neg hUd, hgf]
            rfl
        have hex2 : ¬ fs2.fileExists ((getUserChromeDataDir home).1
            ++ ["Default", "Cookies"]) = false := by
          rw [hexT2]
          simp
        have ho2 : fs2.openRead ((getUserChromeDataDir home).1
            ++ ["Default", "Cookies"]) = some c := by
          unfold FS.openRead
          rw [hfs2unread, hur, if_neg (by simp), hfs2files, getFile_setFile]
          by_cases hUd : (getUserChromeDataDir home).1 ++ ["Default", "Cookies"]
              = dir ++ ["Default"] ++ ["Cookies"]
          · rw [if_pos hUd]
          · rw [if_neg hUd, hgf]
        have hcreate2 : fs2.create (dir ++ ["Default"] ++ ["Cookies"]) c
            = some fs2 := by
          unfold FS.create
          rw [hfs2dirs, if_pos hmb, hfs2files, setFile_idem, ← hfs2files,
            ← hfs2dirs]
        have hcp2 : copyFile fs2 ((getUserChromeDataDir home).1
              ++ ["Default", "Cookies"]) (dir ++ ["Default"] ++ ["Cookies"])
            = .ok fs2 := by
          unfold copyFile
          simp only [ho2, hcreate2]
        simp only [copyUserCookiesToAutomation, hD2, if_neg hex2, hcp2]

theorem copyUserCookies_shape (home : Option FPath) (dir : FPath) (fs : FS) :
    (∀ q, q ≠ dir ++ ["Default"] ++ ["Cookies"] →
      getFile (copyUserCookiesToAutomation home dir fs).1.files q
        = getFile fs.files q)
    ∧ (∀ q, q ∈ fs.dirs → q ∈ (copyUserCookiesToAutomation home dir fs).1.dirs) := by
  cases hD : fs.mkdirAll (dir ++ ["Default"]) with
  | none =>
    have h1 : (copyUserCookiesToAutomation home dir fs).1 = fs := by
      simp only [copyUserCookiesToAutomation, hD]
    rw [h1]
    exact ⟨fun q _ => rfl, fun q hq => hq⟩
  | some fsD =>
    obtain ⟨hf, hu, hd, _⟩ := mkdirAll_some_parts _ _ _ hD
    have hdm : ∀ q, q ∈ fs.dirs → q ∈ fsD.dirs := fun q hq => by
      rw [hd]
      exact (mem_insertDirs _ _ _).2 (Or.inl hq)
    by_cases hex : fsD.fileExists ((getUserChromeDataDir home).1
        ++ ["Default", "Cookies"]) = false
    · simp only [copyUserCookiesToAutomation, hD, if_pos hex]
      exact ⟨fun q _ => by rw [hf], hdm⟩
    · cases hcp : copyFile fsD ((getUserChromeDataDir home).1
          ++ ["Default", "Cookies"]) (dir ++ ["Default"] ++ ["Cookies"]) with
      | error e =>
        simp only [copyUserCookiesToAutomation, hD, if_neg hex, hcp]
        exact ⟨fun q _ => by rw [hf], hdm⟩
      | ok fs2 =>
        obtain ⟨c, ho, hcr⟩ := copyFile_ok_parts _ _ _ _ hcp
        obtain ⟨hfs2, hmb⟩ := create_some_parts _ _ _ _ hcr
        have hfs2files : fs2.files
            = setFile fsD.files (dir ++ ["Default"] ++ ["Cookies"]) c := by
          rw [hfs2]
        have hfs2dirs : fs2.dirs = fsD.dirs := by rw [hfs2]
        simp only [copyUserCookiesToAutomation, hD, if_neg hex, hcp]
        constructor
        · intro q hq
          rw [hfs2files, getFile_setFile, if_neg hq, hf]
        · intro q hq
          rw [hfs2dirs]
          exact hdm q hq

theorem provision_idem (home : Option FPath) (fs : FS) :
    provisionAutomationProfile home ((provisionAutomationProfile home fs).2.1)
      = provisionAutomationProfile home fs := by
  cases home with
  | none =>
    simp only [provisionAutomationProfile, getAutomationChromeDataDir]
    rw [copyUserCookies_idem]
  | some h =>
    cases hA : fs.mkdirAll (h ++ ["Library", "Application Support", "Google",
        "Chrome-Automation"]) with
    | none =>
      have hD : fs.mkdirAll ((h ++ ["Library", "Application Support", "Google",
          "Chrome-Automation"]) ++ ["Default"]) = none := by
        rw [mkdirAll_none_iff] at hA ⊢
        rw [List.any_eq_true] at hA ⊢
        obtain ⟨q, hq, hfe⟩ := hA
        exact ⟨q, ancestors_mono _ hq, hfe⟩
      have hg : getAutomationChromeDataDir (some h) fs
          = (h ++ ["Library", "Application Support", "Google", "Chrome-Automation"],
             fs,
             [.log .warn "Failed to create Chrome automation directory",
              .log .info "Using Chrome automation data directory"]) := by
        simp only [getAutomationChromeDataDir, hA]
      have hcopy1 : (copyUserCookiesToAutomation (some h)
          (h ++ ["Library", "Application Support", "Google", "Chrome-Automation"])
          fs).1 = fs := by
        simp only [copyUserCookiesToAutomation, hD]
      simp only [provisionAutomationProfile, hg, hcopy1]
    | some fsA =>
      obtain ⟨hfA, huA, hdA, _⟩ := mkdirAll_some_parts _ _ _ hA
      obtain ⟨hcf, hcd⟩ := copyUserCookies_shape (some h)
        (h ++ ["Library", "Application Support", "Google", "Chrome-Automation"])
        fsA
      have hA2 : ((copyUserCookiesToAutomation (some h)
            (h ++ ["Library", "Application Support", "Google", "Chrome-Automation"])
            fsA).1).mkdirAll
            (h ++ ["Library", "Application Support", "Google", "Chrome-Automation"])
          = some ((copyUserCookiesToAutomation (some h)
            (h ++ ["Library", "Application Support", "Google", "Chrome-Automation"])
            fsA).1) := by
        refine mkdirAll_stable fs fsA _ _ hA (fun q hq => ?_) (fun q hq => ?_)
        · unfold FS.fileExists
          have hne : q ≠ h ++ ["Library", "Application Support", "Google",
              "Chrome-Automation"] ++ ["Default"] ++ ["Cookies"] := by
            rw [List.append_assoc]
            exact mem_ancestors_ne_extend hq (["Default"] ++ ["Cookies"])
              (by simp)
          rw [hcf q hne, hfA]
        · refine hcd q ?_
          rw [hdA]
          exact (mem_insertDirs _ _ _).2 (Or.inr hq)
      have hg : getAutomationChromeDataDir (some h) fs
          = (h ++ ["Library", "Application Support", "Google", "Chrome-Automation"],
             fsA, [.log .info "Using Chrome automation data directory"]) := by
        simp only [getAutomationChromeDataDir, hA]
      have hg2 : getAutomationChromeDataDir (some h)
            ((copyUserCookiesToAutomation (some h)
              (h ++ ["Library", "Application Support", "Google", "Chrome-Automation"])
              fsA).1)
          = (h ++ ["Library", "Application Support", "Google", "Chrome-Automation"],
             (copyUserCookiesToAutomation (some h)
              (h ++ ["Library", "Application Support", "Google", "Chrome-Automation"])
              fsA).1,
             [.log .info "Using Chrome automation data directory"]) := by
        simp only [getAutomationChromeDataDir, hA2]
      simp only [provisionAutomationProfile, hg, hg2, copyUserCookies_idem]

/-- Claim C8: the automation-profile provisioning step (directory creation
plus cookie-database copy) is idempotent: a second run on the state left by
the first returns the identical directory, filesystem and log events, never
emits a fatal event, and every file present after the first run, the copied
cookie database included, is still present unchanged after the second. -/
theorem C8_provision_idempotent (home : Option FPath) (fs : FS) :
    provisionAutomationProfile home ((provisionAutomationProfile home fs).2.1)
      = provisionAutomationProfile home fs
    ∧ (∀ msg, Ev.log LogLevel.fatal msg
        ∉ (provisionAutomationProfile home
            ((provisionAutomationProfile home fs).2.1)).2.2)
    ∧ (∀ p c, getFile ((provisionAutomationProfile home fs).2.1).files p = some c →
        getFile ((provisionAutomationProfile home
          ((provisionAutomationProfile home fs).2.1)).2.1).files p = some c) := by
  refine ⟨provision_idem home fs, ?_, ?_⟩
  · intro msg hm
    have := provision_events_infowarn _ _ _ hm
    simp [isInfoOrWarnLog] at this
  · intro p c hc
    rw [provision_idem home fs]
    exact hc

/-- Claim C8, witness: on the concrete filesystem where the first run copied
the user cookie database, the second run returns exactly the first run result
and the copied database survives. -/
theorem C8_provision_idempotent_witness :
    provisionAutomationProfile (some c7home)
        ((provisionAutomationProfile (some c7home) c7fs).2.1)
      = provisionAutomationProfile (some c7home) c7fs
    ∧ getFile ((provisionAutomationProfile (some c7home)
          ((provisionAutomationProfile (some c7home) c7fs).2.1)).2.1).files
        automationCookiesDest = some "COOKIEDB" := by
  have h := C8_provision_idempotent (some c7home) c7fs
  exact ⟨h.1, h.2.2 automationCookiesDest "COOKIEDB" (by decide)⟩

end XhsBrowser

